import Mathlib

/-!
# tiedot HTTP gateway (`httpapi/srv.go`)

A shallow embedding of the handler-registration layer of tiedot's HTTP API:
`Require`, `Welcome`, `corsWrap`, `ServeEndpoints`, `ServeCorsEndpoints` and
`Start`, together with the fragment of Go's `net/http` those functions call
(`Header.Get`/`Set`, `ResponseWriter.WriteHeader`/`Write`, `http.Error`,
`Request.FormValue`, `http.HandleFunc`, `ListenAndServe`, `ListenAndServeTLS`).

Stateful Go code is written in state-passing style: a handler receives the
response writer together with the rest of the program state and returns both.
-/

namespace httpapi

/-! ## `net/http` headers -/

/-- The bytes `textproto` accepts in a header field name (the token
characters of RFC 7230): letters, digits, and fifteen punctuation characters
listed here by code point. -/
def validHeaderFieldByte (c : Char) : Bool :=
  c.isAlphanum || [33, 35, 36, 37, 38, 39, 42, 43, 45, 46, 94, 95, 96, 124, 126].contains c.toNat

/-- The loop of `textproto.canonicalMIMEHeaderKey`: the first letter and every
letter after a dash become upper case, all other letters lower case. -/
def canonicalLoop : Bool → List Char → List Char
  | _, [] => []
  | upper, c :: cs =>
    let c1 := if upper && c.isLower then c.toUpper
              else if !upper && c.isUpper then c.toLower
              else c
    c1 :: canonicalLoop (c1 == '-') cs

/-- `textproto.CanonicalMIMEHeaderKey`: a key holding a byte that is not a
valid header field byte is returned unchanged, any other key is put in
canonical form. -/
def CanonicalMIMEHeaderKey (s : String) : String :=
  if s.toList.all validHeaderFieldByte then String.mk (canonicalLoop true s.toList) else s

/-- Go's `http.Header`, a `map[string][]string`: `none` is a key that is not
in the map. -/
abbrev Header := String → Option (List String)

/-- The empty header map. -/
def Header.empty : Header := fun _ => none

/-- `Header.Get`: the first value stored under the canonical form of `key`,
or `""` when there is none. -/
def Header.Get (h : Header) (key : String) : String :=
  match h (CanonicalMIMEHeaderKey key) with
  | some (v :: _) => v
  | _ => ""

/-- `Header.Set`: the entry under the canonical form of `key` becomes the
single value `value`, replacing whatever was there. -/
def Header.Set (h : Header) (key value : String) : Header :=
  fun k => if k = CanonicalMIMEHeaderKey key then some [value] else h k

/-- `Header.Del`: removes the entry under the canonical form of `key`. -/
def Header.Del (h : Header) (key : String) : Header :=
  fun k => if k = CanonicalMIMEHeaderKey key then none else h k

/-! ## Requests and response writers -/

/-- The part of `*http.Request` the handlers of `srv.go` read: the method,
`URL.Path`, the request headers, and the parsed form (`url.Values`, a
`map[string][]string` where a missing key is the empty list). -/
structure Request where
  Method : String
  Path : String
  Header : Header
  Form : String → List String

/-- `Request.FormValue`: the first value of the named form component, `""`
when the key is not present. -/
def Request.FormValue (r : Request) (key : String) : String :=
  match r.Form key with
  | v :: _ => v
  | [] => ""

/-- A call a handler makes on the `http.ResponseWriter` interface. -/
inductive WriterCall where
  | WriteHeader (code : Nat)
  | Write (data : String)
  deriving DecidableEq, Repr

/-- The state behind an `http.ResponseWriter`, as `net/http`'s server keeps
it: the header map handed out by `w.Header()`, whether the status line has
been committed and with which code and header snapshot, the body bytes
written so far, and the record of the calls made on the writer. -/
structure ResponseWriter where
  Header : Header
  wroteHeader : Bool
  status : Nat
  sent : httpapi.Header
  body : String
  calls : List WriterCall

/-- The writer the server hands to a handler for a new request. -/
def newResponse : ResponseWriter where
  Header := Header.empty
  wroteHeader := false
  status := 0
  sent := Header.empty
  body := ""
  calls := []

/-- The effect of `w.Header().Set(key, value)`. -/
def ResponseWriter.setHeader (w : ResponseWriter) (key value : String) : ResponseWriter :=
  { w with Header := w.Header.Set key value }

/-- The effect of `w.Header().Del(key)`. -/
def ResponseWriter.delHeader (w : ResponseWriter) (key : String) : ResponseWriter :=
  { w with Header := w.Header.Del key }

/-- Commits the status line: the first commit fixes the status code and the
headers that go out, a later one is ignored. -/
def ResponseWriter.commit (w : ResponseWriter) (code : Nat) : ResponseWriter :=
  if w.wroteHeader then w
  else { w with wroteHeader := true, status := code, sent := w.Header }

/-- `w.WriteHeader(code)`. -/
def ResponseWriter.WriteHeader (w : ResponseWriter) (code : Nat) : ResponseWriter :=
  { w.commit code with calls := w.calls ++ [WriterCall.WriteHeader code] }

/-- `w.Write(data)`: a write before any `WriteHeader` first commits status
200. -/
def ResponseWriter.Write (w : ResponseWriter) (data : String) : ResponseWriter :=
  let w1 := w.commit 200
  { w1 with body := w1.body ++ data, calls := w.calls ++ [WriterCall.Write data] }

/-- What the server does when the handler returns: a handler that never
committed a status gets status 200. -/
def finishRequest (w : ResponseWriter) : ResponseWriter :=
  w.commit 200

/-- `http.Error(w, error, code)`: drops `Content-Length`, sets the plain-text
content type headers, writes the status and then the message followed by a
newline (`fmt.Fprintln`). -/
def Error (w : ResponseWriter) (error : String) (code : Nat) : ResponseWriter :=
  let w := w.delHeader "Content-Length"
  let w := w.setHeader "Content-Type" "text/plain; charset=utf-8"
  let w := w.setHeader "X-Content-Type-Options" "nosniff"
  let w := w.WriteHeader code
  w.Write (error ++ "\n")

/-- Go's `http.HandlerFunc`, `func(w http.ResponseWriter, r *http.Request)`,
in state-passing style: `σ` is whatever program state the handler can touch
besides the response writer. -/
abbrev HandlerFunc (σ : Type) := ResponseWriter × σ → Request → ResponseWriter × σ

/-! ## `srv.go`: request-time functions -/

/-- `Require(w, r, key, val)`: returns the boolean result, the string left
in `*val`, and the response writer. -/
def Require (w : ResponseWriter) (r : Request) (key : String) : Bool × String × ResponseWriter :=
  let val := r.FormValue key
  if val = "" then
    (false, val,
      Error w ("Please pass POST/PUT/GET parameter value of '" ++ key ++ "'.") 400)
  else
    (true, val, w)

/-- `Welcome(w, r)`. -/
def Welcome {σ : Type} : HandlerFunc σ := fun (w, s) r =>
  if r.Path ≠ "/" then
    (Error w "Invalid API endpoint" 404, s)
  else
    (w.Write "Welcome to tiedot", s)

/-- `corsWrap(originalHandler)`. -/
def corsWrap {σ : Type} (originalHandler : HandlerFunc σ) : HandlerFunc σ := fun (w, s) r =>
  let w := w.setHeader "Cache-Control" "must-revalidate"
  let origin := r.Header.Get "Origin"
  let w := if origin ≠ "" then w.setHeader "Access-Control-Allow-Origin" origin else w
  let w := w.setHeader "Access-Control-Expose-Headers" "Authorization"
  let w := w.setHeader "Access-Control-Allow-Methods" "POST, GET, OPTIONS, PUT, DELETE"
  let w := w.setHeader "Access-Control-Allow-Headers"
    "Content-Type, Content-Length, Accept-Encoding, X-CSRF-Token, Authorization"
  if r.Method = "OPTIONS" then
    (w, s)
  else
    originalHandler (w, s) r

/-- Instruments a handler with a record of its invocations: every call appends
the response writer and the request it was given to the list kept next to the
handler's own state. -/
def recorded {σ : Type} (h : HandlerFunc σ) : HandlerFunc (σ × List (ResponseWriter × Request)) :=
  fun (w, s, log) r =>
    let (w1, s1) := h (w, s) r
    (w1, s1, log ++ [(w, r)])

/-! ## Bootstrap: the collaborators of `Start` -/

/-- The handler functions of package `httpapi` by name, as they are passed to
`http.HandleFunc`: `Welcome` and `corsWrap` are defined in `srv.go`, the others
in sibling files of the package. -/
inductive Handler where
  | Welcome | Version | MemStats
  | Create | Rename | Drop | All | Scrub | Sync
  | Query | Count
  | Insert | Get | GetPage | Update | Delete | ApproxDocCount
  | Index | Indexes | Unindex
  | Shutdown | Dump
  | corsWrap (originalHandler : Handler)
  deriving DecidableEq, Repr

/-- The function a handler name stands for, given the functions `base` of the
handlers defined outside `srv.go`. -/
def Handler.run {σ : Type} (base : Handler → HandlerFunc σ) : Handler → HandlerFunc σ
  | Handler.Welcome => httpapi.Welcome
  | Handler.corsWrap originalHandler => httpapi.corsWrap (Handler.run base originalHandler)
  | h => base h

/-- The handle `db.OpenDB` returns; package `db` owns what is behind it. -/
structure DB where
  path : String
  deriving DecidableEq, Repr

/-- What a call of `http.ListenAndServe` or `http.ListenAndServeTLS` does: it
keeps serving and never returns, or it returns an error value (`nil` is
`none`). -/
inductive Listen where
  | serves
  | returns (err : Option String)
  deriving DecidableEq, Repr

/-- The behaviour of the collaborators `Start` calls and `srv.go` does not
define: `db.OpenDB` (the Go pair of handle and error), `ServeJWTEnabledEndpoints`
of the sibling file (`none` when it returns, the panic value when it panics),
and the two `net/http` listeners. -/
structure Env where
  OpenDB : String → Option DB × Option String
  ServeJWTEnabledEndpoints : String → String → Option String
  ListenAndServeTLS : String → String → String → Listen
  ListenAndServe : String → Listen

/-- A call `Start` and the registration functions make on the outside world,
recorded in program order. -/
inductive Event where
  | OpenDB (dir : String)
  | HandleFunc (pattern : String) (handler : Handler)
  | ServeJWTEnabledEndpoints (jwtPubKey jwtPrivateKey : String)
  | Noticef (msg : String)
  | ListenAndServeTLS (addr certFile keyFile : String)
  | ListenAndServe (addr : String)
  deriving DecidableEq, Repr

/-- Whether a recorded call is a `HandleFunc` call. -/
def Event.isHandleFunc : Event → Bool
  | Event.HandleFunc _ _ => true
  | _ => false

/-- The process state `Start` works on: the package variable `HttpDB` and the
record of the calls made so far (the `HandleFunc` events are the content of
`http.DefaultServeMux`). -/
structure World where
  HttpDB : Option DB
  events : List Event
  deriving DecidableEq, Repr

/-- The state of a process that has just started. -/
def World.init : World where
  HttpDB := none
  events := []

/-- How a Go call ends: it returns a value, it panics with a value, or it never
returns (a listener that keeps serving). -/
inductive Outcome (α : Type) where
  | returned (a : α)
  | panicked (v : String)
  | blocked
  deriving DecidableEq, Repr

/-- A Go statement sequence over the process state: a panic or a call that
never returns ends the sequence there, with the state reached so far. -/
def Boot (α : Type) : Type := World → Outcome α × World

/-- Sequencing of `Boot` computations. -/
def Boot.bind {α β : Type} (m : Boot α) (f : α → Boot β) : Boot β := fun s =>
  match m s with
  | (Outcome.returned a, s1) => f a s1
  | (Outcome.panicked v, s1) => (Outcome.panicked v, s1)
  | (Outcome.blocked, s1) => (Outcome.blocked, s1)

instance : Monad Boot where
  pure a := fun s => (Outcome.returned a, s)
  bind := Boot.bind

/-- Appends a call to the record. -/
def emit (e : Event) : Boot Unit := fun s =>
  (Outcome.returned (), { s with events := s.events ++ [e] })

/-- Go's `panic(v)`. -/
def goPanic {α : Type} (v : String) : Boot α := fun s => (Outcome.panicked v, s)

/-- The patterns registered in `http.DefaultServeMux` by the `HandleFunc` calls
of a record. -/
def registered : List Event → List String
  | [] => []
  | Event.HandleFunc pattern _ :: es => pattern :: registered es
  | _ :: es => registered es

/-- The registration calls of a record, in order: the `HandleFunc` calls and the
calls of `ServeJWTEnabledEndpoints`. -/
def registrations : List Event → List Event
  | [] => []
  | Event.HandleFunc pattern handler :: es => Event.HandleFunc pattern handler :: registrations es
  | Event.ServeJWTEnabledEndpoints pub priv :: es =>
    Event.ServeJWTEnabledEndpoints pub priv :: registrations es
  | _ :: es => registrations es

/-- The listener calls of a record, in order. -/
def listeners : List Event → List Event
  | [] => []
  | Event.ListenAndServeTLS addr certFile keyFile :: es =>
    Event.ListenAndServeTLS addr certFile keyFile :: listeners es
  | Event.ListenAndServe addr :: es => Event.ListenAndServe addr :: listeners es
  | _ :: es => listeners es

/-- The routing table of a record: pattern and handler of each `HandleFunc`
call, in order. -/
def routes : List Event → List (String × Handler)
  | [] => []
  | Event.HandleFunc pattern handler :: es => (pattern, handler) :: routes es
  | _ :: es => routes es

/-- `http.HandleFunc(pattern, handler)` on `http.DefaultServeMux`: panics on an
empty pattern and on a pattern that is registered already, otherwise adds the
route. -/
def HandleFunc (pattern : String) (handler : Handler) : Boot Unit := fun s =>
  if pattern = "" then
    (Outcome.panicked "http: invalid pattern", s)
  else if pattern ∈ registered s.events then
    (Outcome.panicked ("http: multiple registrations for " ++ pattern), s)
  else
    emit (Event.HandleFunc pattern handler) s

/-- `db.OpenDB(dir)` assigned to `HttpDB, err`: stores the handle in `HttpDB`
and returns the error. -/
def OpenDB (env : Env) (dir : String) : Boot (Option String) := fun s =>
  (Outcome.returned (env.OpenDB dir).2,
    { HttpDB := (env.OpenDB dir).1, events := s.events ++ [Event.OpenDB dir] })

/-- The call of `ServeJWTEnabledEndpoints(jwtPubKey, jwtPrivateKey)`, a function
of a sibling file: the call is recorded, and it returns or panics as the
environment says. -/
def ServeJWTEnabledEndpoints (env : Env) (jwtPubKey jwtPrivateKey : String) : Boot Unit :=
  fun s =>
    let s1 := { s with events := s.events ++ [Event.ServeJWTEnabledEndpoints jwtPubKey jwtPrivateKey] }
    match env.ServeJWTEnabledEndpoints jwtPubKey jwtPrivateKey with
    | none => (Outcome.returned (), s1)
    | some v => (Outcome.panicked v, s1)

/-- `tdlog.Noticef` with its message already formatted: the message is
logged. -/
def Noticef (msg : String) : Boot Unit := emit (Event.Noticef msg)

/-- Modelled from the spec: `tdlog.Panicf` (package `tdlog` is not among the
sources) is the "explicit abort with diagnostic" of the TLS path: it panics
with the formatted message. -/
def Panicf {α : Type} (msg : String) : Boot α := goPanic msg

/-- `http.ListenAndServeTLS(addr, certFile, keyFile, nil)`. -/
def ListenAndServeTLS (env : Env) (addr certFile keyFile : String) : Boot (Option String) :=
  fun s =>
    let s1 := { s with events := s.events ++ [Event.ListenAndServeTLS addr certFile keyFile] }
    match env.ListenAndServeTLS addr certFile keyFile with
    | Listen.serves => (Outcome.blocked, s1)
    | Listen.returns err => (Outcome.returned err, s1)

/-- `http.ListenAndServe(addr, nil)`. -/
def ListenAndServe (env : Env) (addr : String) : Boot (Option String) := fun s =>
  let s1 := { s with events := s.events ++ [Event.ListenAndServe addr] }
  match env.ListenAndServe addr with
  | Listen.serves => (Outcome.blocked, s1)
  | Listen.returns err => (Outcome.returned err, s1)

/-! ## `srv.go`: registration and `Start` -/

/-- `ServeEndpoints()`. -/
def ServeEndpoints : Boot Unit := do
  -- collection management (stop-the-world)
  HandleFunc "/create" Handler.Create
  HandleFunc "/rename" Handler.Rename
  HandleFunc "/drop" Handler.Drop
  HandleFunc "/all" Handler.All
  HandleFunc "/scrub" Handler.Scrub
  HandleFunc "/sync" Handler.Sync
  -- query
  HandleFunc "/query" Handler.Query
  HandleFunc "/count" Handler.Count
  -- document management
  HandleFunc "/insert" Handler.Insert
  HandleFunc "/get" Handler.Get
  HandleFunc "/getpage" Handler.GetPage
  HandleFunc "/update" Handler.Update
  HandleFunc "/delete" Handler.Delete
  HandleFunc "/approxdoccount" Handler.ApproxDocCount
  -- index management (stop-the-world)
  HandleFunc "/index" Handler.Index
  HandleFunc "/indexes" Handler.Indexes
  HandleFunc "/unindex" Handler.Unindex
  -- misc (stop-the-world)
  HandleFunc "/shutdown" Handler.Shutdown
  HandleFunc "/dump" Handler.Dump

/-- `ServeCorsEndpoints()`. -/
def ServeCorsEndpoints : Boot Unit := do
  -- collection management (stop-the-world)
  HandleFunc "/create" (Handler.corsWrap Handler.Create)
  HandleFunc "/rename" (Handler.corsWrap Handler.Rename)
  HandleFunc "/drop" (Handler.corsWrap Handler.Drop)
  HandleFunc "/all" (Handler.corsWrap Handler.All)
  HandleFunc "/scrub" (Handler.corsWrap Handler.Scrub)
  HandleFunc "/sync" (Handler.corsWrap Handler.Sync)
  -- query
  HandleFunc "/query" (Handler.corsWrap Handler.Query)
  HandleFunc "/count" (Handler.corsWrap Handler.Count)
  -- document management
  HandleFunc "/insert" (Handler.corsWrap Handler.Insert)
  HandleFunc "/get" (Handler.corsWrap Handler.Get)
  HandleFunc "/getpage" (Handler.corsWrap Handler.GetPage)
  HandleFunc "/update" (Handler.corsWrap Handler.Update)
  HandleFunc "/delete" (Handler.corsWrap Handler.Delete)
  HandleFunc "/approxdoccount" (Handler.corsWrap Handler.ApproxDocCount)
  -- index management (stop-the-world)
  HandleFunc "/index" (Handler.corsWrap Handler.Index)
  HandleFunc "/indexes" (Handler.corsWrap Handler.Indexes)
  HandleFunc "/unindex" (Handler.corsWrap Handler.Unindex)
  -- misc
  HandleFunc "/shutdown" (Handler.corsWrap Handler.Shutdown)
  HandleFunc "/dump" (Handler.corsWrap Handler.Dump)
  Noticef "Http CORS is enabled."

/-- `Start(dir, port, tlsCrt, tlsKey, jwtPubKey, jwtPrivateKey)`; `%d` of the
port is its decimal notation. -/
def Start (env : Env) (dir : String) (port : Int)
    (tlsCrt tlsKey jwtPubKey jwtPrivateKey : String) : Boot Unit := do
  let err ← OpenDB env dir
  match err with
  | some e => goPanic e
  | none => pure ()
  -- These endpoints are always available and do not require JWT auth
  HandleFunc "/" Handler.Welcome
  HandleFunc "/version" Handler.Version
  HandleFunc "/memstats" Handler.MemStats
  if jwtPrivateKey ≠ "" then
    -- JWT support
    ServeJWTEnabledEndpoints env jwtPubKey jwtPrivateKey
  else
    -- No JWT
    ServeCorsEndpoints
  if tlsCrt ≠ "" then
    Noticef ("Will listen on all interfaces (HTTPS), port " ++ toString port ++ ".")
    let err ← ListenAndServeTLS env (":" ++ toString port) tlsCrt tlsKey
    match err with
    | some e => Panicf ("Failed to start HTTPS service - " ++ e)
    | none => pure ()
  else
    Noticef ("Will listen on all interfaces (HTTP), port " ++ toString port ++ ".")
    let _ ← ListenAndServe env (":" ++ toString port)
    pure ()

/-! ## The specification's endpoint lists -/

/-- The always-public paths of the specification. -/
def alwaysPublicPaths : List String := ["/", "/version", "/memstats"]

/-- The operation paths as the specification lists them: the stop-the-world
admin paths followed by the concurrent-safe data operations. -/
def specOperationPaths : List String :=
  ["/create", "/rename", "/drop", "/all", "/scrub", "/sync", "/index", "/indexes", "/unindex",
   "/shutdown", "/dump",
   "/query", "/count", "/insert", "/get", "/getpage", "/update", "/delete", "/approxdoccount"]

/-! ## Sample inputs -/

/-- An environment in which everything works: the database opens, the JWT
registration returns, and the listeners keep serving. -/
def servingEnv : Env where
  OpenDB := fun dir => (some { path := dir }, none)
  ServeJWTEnabledEndpoints := fun _ _ => none
  ListenAndServeTLS := fun _ _ _ => Listen.serves
  ListenAndServe := fun _ => Listen.serves

/-- An environment in which the database opens and every listener fails to
bind, returning an error. -/
def bindFailureEnv : Env where
  OpenDB := fun dir => (some { path := dir }, none)
  ServeJWTEnabledEndpoints := fun _ _ => none
  ListenAndServeTLS := fun addr _ _ => Listen.returns (some ("listen tcp " ++ addr ++ ": bind: address already in use"))
  ListenAndServe := fun addr => Listen.returns (some ("listen tcp " ++ addr ++ ": bind: address already in use"))

/-- An environment in which the database opens and the listeners keep serving,
but `ServeJWTEnabledEndpoints` panics because it cannot read the public key
file. -/
def jwtPanicEnv : Env where
  OpenDB := fun dir => (some { path := dir }, none)
  ServeJWTEnabledEndpoints := fun jwtPubKey _ =>
    some ("JWT: Failed to read public key file - open " ++ jwtPubKey ++
      ": no such file or directory")
  ListenAndServeTLS := fun _ _ _ => Listen.serves
  ListenAndServe := fun _ => Listen.serves

/-- The request `OPTIONS /insert` without any header or form value. -/
def preflightNoOrigin : Request where
  Method := "OPTIONS"
  Path := "/insert"
  Header := Header.empty
  Form := fun _ => []

/-- The request `OPTIONS /insert` carrying `Origin: http://x.test`. -/
def preflightWithOrigin : Request where
  Method := "OPTIONS"
  Path := "/insert"
  Header := Header.empty.Set "Origin" "http://x.test"
  Form := fun _ => []

/-- The request `POST /insert` with form field `col=test` and no `doc`. -/
def insertWithoutDoc : Request where
  Method := "POST"
  Path := "/insert"
  Header := Header.empty
  Form := fun k => if k = "col" then ["test"] else []

/-- A `GET` request for the given path, without headers or form values. -/
def getRequest (path : String) : Request where
  Method := "GET"
  Path := path
  Header := Header.empty
  Form := fun _ => []

/-! ## Header lemmas -/

@[simp] theorem canonical_CacheControl :
    CanonicalMIMEHeaderKey "Cache-Control" = "Cache-Control" := by decide

@[simp] theorem canonical_Origin : CanonicalMIMEHeaderKey "Origin" = "Origin" := by decide

@[simp] theorem canonical_AllowOrigin :
    CanonicalMIMEHeaderKey "Access-Control-Allow-Origin" = "Access-Control-Allow-Origin" := by
  decide

@[simp] theorem canonical_ExposeHeaders :
    CanonicalMIMEHeaderKey "Access-Control-Expose-Headers" = "Access-Control-Expose-Headers" := by
  decide

@[simp] theorem canonical_AllowMethods :
    CanonicalMIMEHeaderKey "Access-Control-Allow-Methods" = "Access-Control-Allow-Methods" := by
  decide

@[simp] theorem canonical_AllowHeaders :
    CanonicalMIMEHeaderKey "Access-Control-Allow-Headers" = "Access-Control-Allow-Headers" := by
  decide

@[simp] theorem canonical_ContentLength :
    CanonicalMIMEHeaderKey "Content-Length" = "Content-Length" := by decide

@[simp] theorem canonical_ContentType :
    CanonicalMIMEHeaderKey "Content-Type" = "Content-Type" := by decide

@[simp] theorem canonical_NoSniff :
    CanonicalMIMEHeaderKey "X-Content-Type-Options" = "X-Content-Type-Options" := by decide

/-! ## `http.Error` -/

/-- `http.Error` makes exactly two calls on the writer: `WriteHeader(code)` and
one `Write` of the message with a newline. -/
theorem Error_calls (w : ResponseWriter) (msg : String) (code : Nat) :
    (Error w msg code).calls =
      w.calls ++ [WriterCall.WriteHeader code, WriterCall.Write (msg ++ "\n")] := by
  simp [Error, ResponseWriter.Write, ResponseWriter.WriteHeader, ResponseWriter.commit,
    ResponseWriter.setHeader, ResponseWriter.delHeader]

/-- `http.Error` appends the message and a newline to the body. -/
theorem Error_body (w : ResponseWriter) (msg : String) (code : Nat) :
    (Error w msg code).body = w.body ++ (msg ++ "\n") := by
  cases hw : w.wroteHeader <;>
  simp [Error, ResponseWriter.Write, ResponseWriter.WriteHeader, ResponseWriter.commit,
    ResponseWriter.setHeader, ResponseWriter.delHeader, hw]

/-- On a writer that has not committed a status, `http.Error` commits `code`. -/
theorem Error_status (w : ResponseWriter) (msg : String) (code : Nat)
    (hw : w.wroteHeader = false) :
    (Error w msg code).status = code ∧ (Error w msg code).wroteHeader = true := by
  simp [Error, ResponseWriter.Write, ResponseWriter.WriteHeader, ResponseWriter.commit,
    ResponseWriter.setHeader, ResponseWriter.delHeader, hw]

/-! ## `Require` -/

/-- C1: `Require` returns true exactly when the form value of the key is a
non-empty string; on true `*val` is that form value and the writer is
untouched; on false the writer receives exactly one `WriteHeader(400)` followed
by one body write of the message naming the key (with the newline `http.Error`
appends), so a writer that had not committed a status ends with status 400 and
that message as the new body bytes. -/
theorem Require_contract (w : ResponseWriter) (r : Request) (key : String) :
    ((Require w r key).1 = true ↔ r.FormValue key ≠ "") ∧
    ((Require w r key).1 = true →
      (Require w r key).2.1 = r.FormValue key ∧ (Require w r key).2.2 = w) ∧
    ((Require w r key).1 = false →
      (Require w r key).2.2.calls = w.calls ++
        [WriterCall.WriteHeader 400,
         WriterCall.Write ("Please pass POST/PUT/GET parameter value of '" ++ key ++ "'." ++ "\n")] ∧
      (Require w r key).2.2.body =
        w.body ++ ("Please pass POST/PUT/GET parameter value of '" ++ key ++ "'." ++ "\n") ∧
      (w.wroteHeader = false → (Require w r key).2.2.status = 400)) := by
  by_cases hv : r.FormValue key = ""
  · simp only [Require, hv, if_true]
    refine ⟨by simp, by simp, fun _ => ⟨Error_calls _ _ _, Error_body _ _ _, fun hw => ?_⟩⟩
    exact (Error_status _ _ _ hw).1
  · simp [Require, hv]

/-- The end-to-end scenario of the specification: `POST /insert` with `col` but
without `doc` is refused with status 400 and the message naming `doc`, while
`col` is accepted and nothing is written. -/
theorem Require_contract_witness :
    (Require newResponse insertWithoutDoc "doc").1 = false ∧
    (Require newResponse insertWithoutDoc "doc").2.2.calls =
      [WriterCall.WriteHeader 400,
       WriterCall.Write "Please pass POST/PUT/GET parameter value of 'doc'.\n"] ∧
    (Require newResponse insertWithoutDoc "doc").2.2.status = 400 ∧
    (Require newResponse insertWithoutDoc "col").2.1 = "test" ∧
    (Require newResponse insertWithoutDoc "col").2.2.calls = [] :=
  ⟨by decide,
   ((Require_contract newResponse insertWithoutDoc "doc").2.2 (by decide)).1,
   ((Require_contract newResponse insertWithoutDoc "doc").2.2 (by decide)).2.2 rfl,
   by decide,
   congrArg ResponseWriter.calls
     ((Require_contract newResponse insertWithoutDoc "col").2.1 (by decide)).2⟩

/-! ## `Welcome` -/

/-- C5: on path `/` `Welcome` makes exactly one call on the writer, the write
of the welcome text, and the response a fresh writer yields is status 200 with
that body; on every other path it makes exactly the two calls of one
`http.Error` (status 404, message `Invalid API endpoint`), the response is
status 404 and the welcome text is not written. The program state outside the
writer is left as it was. -/
theorem Welcome_contract {σ : Type} (w : ResponseWriter) (s : σ) (r : Request)
    (hw : w.wroteHeader = false) :
    (Welcome (w, s) r).2 = s ∧
    (r.Path = "/" →
      (Welcome (w, s) r).1.calls = w.calls ++ [WriterCall.Write "Welcome to tiedot"] ∧
      (finishRequest (Welcome (w, s) r).1).status = 200 ∧
      (finishRequest (Welcome (w, s) r).1).body = w.body ++ "Welcome to tiedot") ∧
    (r.Path ≠ "/" →
      (Welcome (w, s) r).1.calls = w.calls ++
        [WriterCall.WriteHeader 404, WriterCall.Write ("Invalid API endpoint" ++ "\n")] ∧
      (finishRequest (Welcome (w, s) r).1).status = 404 ∧
      (finishRequest (Welcome (w, s) r).1).body = w.body ++ ("Invalid API endpoint" ++ "\n")) := by
  by_cases hp : r.Path = "/"
  · simp [Welcome, hp, ResponseWriter.Write, ResponseWriter.commit, finishRequest, hw]
  · have hs := Error_status w "Invalid API endpoint" 404 hw
    simp only [Welcome, hp, ne_eq, not_false_eq_true, if_true, finishRequest,
      ResponseWriter.commit, hs.2, Error_calls, Error_body, hs.1]
    simp

/-- `GET /` on a fresh writer gives 200 and the welcome text in a single
write; `GET /nope` gives 404 through a single `http.Error`. -/
theorem Welcome_contract_witness :
    ((finishRequest (Welcome (newResponse, ()) (getRequest "/")).1).status = 200 ∧
     (finishRequest (Welcome (newResponse, ()) (getRequest "/")).1).body = "Welcome to tiedot" ∧
     (Welcome (newResponse, ()) (getRequest "/")).1.calls =
       [WriterCall.Write "Welcome to tiedot"]) ∧
    ((finishRequest (Welcome (newResponse, ()) (getRequest "/nope")).1).status = 404 ∧
     (finishRequest (Welcome (newResponse, ()) (getRequest "/nope")).1).body =
       "Invalid API endpoint\n" ∧
     (Welcome (newResponse, ()) (getRequest "/nope")).1.calls =
       [WriterCall.WriteHeader 404, WriterCall.Write "Invalid API endpoint\n"]) :=
  ⟨⟨((Welcome_contract newResponse () (getRequest "/") rfl).2.1 rfl).2.1,
    ((Welcome_contract newResponse () (getRequest "/") rfl).2.1 rfl).2.2,
    ((Welcome_contract newResponse () (getRequest "/") rfl).2.1 rfl).1⟩,
   ⟨((Welcome_contract newResponse () (getRequest "/nope") rfl).2.2 (by decide)).2.1,
    ((Welcome_contract newResponse () (getRequest "/nope") rfl).2.2 (by decide)).2.2,
    ((Welcome_contract newResponse () (getRequest "/nope") rfl).2.2 (by decide)).1⟩⟩

/-! ## `corsWrap` -/

/-- The writer `corsWrap` has built when it reaches the method test: the
argument writer with the header updates applied, nothing else changed. -/
theorem corsWrap_delegation (w : ResponseWriter) (r : Request) :
    ∃ w1 : ResponseWriter,
      (∀ (σ : Type) (h : HandlerFunc σ) (s : σ),
        corsWrap h (w, s) r = if r.Method = "OPTIONS" then (w1, s) else h (w1, s) r) ∧
      { w1 with Header := w.Header } = w ∧
      w1.Header = (fun k =>
        if k = "Access-Control-Allow-Headers" then
          some ["Content-Type, Content-Length, Accept-Encoding, X-CSRF-Token, Authorization"]
        else if k = "Access-Control-Allow-Methods" then some ["POST, GET, OPTIONS, PUT, DELETE"]
        else if k = "Access-Control-Expose-Headers" then some ["Authorization"]
        else if k = "Access-Control-Allow-Origin" ∧ r.Header.Get "Origin" ≠ "" then
          some [r.Header.Get "Origin"]
        else if k = "Cache-Control" then some ["must-revalidate"]
        else w.Header k) := by
  by_cases ho : r.Header.Get "Origin" = ""
  · refine ⟨(((w.setHeader "Cache-Control" "must-revalidate").setHeader
        "Access-Control-Expose-Headers" "Authorization").setHeader
        "Access-Control-Allow-Methods" "POST, GET, OPTIONS, PUT, DELETE").setHeader
        "Access-Control-Allow-Headers"
        "Content-Type, Content-Length, Accept-Encoding, X-CSRF-Token, Authorization",
      fun σ h s => ?_, rfl, ?_⟩
    · simp only [corsWrap, ho, ne_eq, not_true_eq_false, if_false]
    · funext k
      simp [ResponseWriter.setHeader, Header.Set, ho]
  · refine ⟨((((w.setHeader "Cache-Control" "must-revalidate").setHeader
        "Access-Control-Allow-Origin" (r.Header.Get "Origin")).setHeader
        "Access-Control-Expose-Headers" "Authorization").setHeader
        "Access-Control-Allow-Methods" "POST, GET, OPTIONS, PUT, DELETE").setHeader
        "Access-Control-Allow-Headers"
        "Content-Type, Content-Length, Accept-Encoding, X-CSRF-Token, Authorization",
      fun σ h s => ?_, rfl, ?_⟩
    · simp only [corsWrap, ho, ne_eq, not_false_eq_true, if_true]
    · funext k
      simp [ResponseWriter.setHeader, Header.Set, ho]

/-- C3: whatever the handler, the request and its method, the writer that
`corsWrap` hands to the wrapped handler (or returns, for `OPTIONS`) carries
`Cache-Control`, `Access-Control-Expose-Headers`, `Access-Control-Allow-Methods`
and `Access-Control-Allow-Headers` with their fixed single values, whatever was
stored under those keys before; `Access-Control-Allow-Origin` holds exactly the
request's `Origin` when that is non-empty and is left as it was when `Origin`
is absent or empty; no other header and nothing else of the writer changes. -/
theorem corsWrap_sets_headers (w : ResponseWriter) (r : Request) :
    ∃ w1 : ResponseWriter,
      (∀ (σ : Type) (h : HandlerFunc σ) (s : σ),
        corsWrap h (w, s) r = if r.Method = "OPTIONS" then (w1, s) else h (w1, s) r) ∧
      w1.Header "Cache-Control" = some ["must-revalidate"] ∧
      w1.Header "Access-Control-Expose-Headers" = some ["Authorization"] ∧
      w1.Header "Access-Control-Allow-Methods" = some ["POST, GET, OPTIONS, PUT, DELETE"] ∧
      w1.Header "Access-Control-Allow-Headers" =
        some ["Content-Type, Content-Length, Accept-Encoding, X-CSRF-Token, Authorization"] ∧
      w1.Header "Access-Control-Allow-Origin" =
        (if r.Header.Get "Origin" = "" then w.Header "Access-Control-Allow-Origin"
         else some [r.Header.Get "Origin"]) ∧
      (∀ k, k ∉ ["Cache-Control", "Access-Control-Allow-Origin", "Access-Control-Expose-Headers",
                  "Access-Control-Allow-Methods", "Access-Control-Allow-Headers"] →
        w1.Header k = w.Header k) ∧
      { w1 with Header := w.Header } = w := by
  obtain ⟨w1, hrun, hrest, hhdr⟩ := corsWrap_delegation w r
  refine ⟨w1, hrun, ?_, ?_, ?_, ?_, ?_, ?_, hrest⟩
  · simp [hhdr]
  · simp [hhdr]
  · simp [hhdr]
  · simp [hhdr]
  · by_cases ho : r.Header.Get "Origin" = "" <;> simp [hhdr, ho]
  · intro k hk
    simp only [List.mem_cons, List.mem_singleton, List.not_mem_nil, or_false, not_or] at hk
    simp [hhdr, hk]

/-- C4: `corsWrap h` never calls `h` on an `OPTIONS` request and calls it
exactly once on any other: the invocation record of the instrumented handler is
unchanged for `OPTIONS` and gains exactly one entry otherwise, and that entry
is the same writer (the argument writer, differing only by its header map)
together with the very request `corsWrap` received. -/
theorem corsWrap_invocations {σ : Type} (h : HandlerFunc σ) (w : ResponseWriter) (s : σ)
    (log : List (ResponseWriter × Request)) (r : Request) :
    ∃ w1 : ResponseWriter,
      { w1 with Header := w.Header } = w ∧
      (corsWrap (recorded h) (w, s, log) r).2.2 =
        (if r.Method = "OPTIONS" then log else log ++ [(w1, r)]) ∧
      (corsWrap (recorded h) (w, s, log) r).2.2.length =
        log.length + (if r.Method = "OPTIONS" then 0 else 1) ∧
      corsWrap h (w, s) r = (if r.Method = "OPTIONS" then (w1, s) else h (w1, s) r) := by
  obtain ⟨w1, hrun, hrest, -⟩ := corsWrap_delegation w r
  refine ⟨w1, hrest, ?_, ?_, hrun σ h s⟩
  · rw [hrun]
    by_cases hm : r.Method = "OPTIONS" <;> simp [hm, recorded]
  · rw [hrun]
    by_cases hm : r.Method = "OPTIONS" <;> simp [hm, recorded]

/-! ### Preflight requests -/

/-- The response to `OPTIONS /insert` without an `Origin` header has no
`Access-Control-Allow-Origin` header, so not all five CORS headers are
present. -/
theorem corsWrap_options_without_origin :
    preflightNoOrigin.Method = "OPTIONS" ∧
    (finishRequest (corsWrap Welcome (newResponse, ()) preflightNoOrigin).1).sent
      "Access-Control-Allow-Origin" = none := by
  decide

/-- C2, amended: an `OPTIONS` request to a handler produced by `corsWrap`, on a
writer that has committed nothing, is answered with status 200 and an empty
body, no call is made on the writer, the response carries `Cache-Control`,
`Access-Control-Expose-Headers`, `Access-Control-Allow-Methods` and
`Access-Control-Allow-Headers`, it carries `Access-Control-Allow-Origin` when
the request has a non-empty `Origin`, and the wrapped handler is not invoked
(its invocation record and its state are unchanged). -/
theorem corsWrap_options_response {σ : Type} (h : HandlerFunc σ) (w : ResponseWriter) (s : σ)
    (log : List (ResponseWriter × Request)) (r : Request)
    (hm : r.Method = "OPTIONS") (hw : w.wroteHeader = false) (hb : w.body = "") :
    (finishRequest (corsWrap h (w, s) r).1).status = 200 ∧
    (finishRequest (corsWrap h (w, s) r).1).body = "" ∧
    (finishRequest (corsWrap h (w, s) r).1).calls = w.calls ∧
    (finishRequest (corsWrap h (w, s) r).1).sent "Cache-Control" = some ["must-revalidate"] ∧
    (finishRequest (corsWrap h (w, s) r).1).sent "Access-Control-Expose-Headers" =
      some ["Authorization"] ∧
    (finishRequest (corsWrap h (w, s) r).1).sent "Access-Control-Allow-Methods" =
      some ["POST, GET, OPTIONS, PUT, DELETE"] ∧
    (finishRequest (corsWrap h (w, s) r).1).sent "Access-Control-Allow-Headers" =
      some ["Content-Type, Content-Length, Accept-Encoding, X-CSRF-Token, Authorization"] ∧
    (r.Header.Get "Origin" ≠ "" →
      (finishRequest (corsWrap h (w, s) r).1).sent "Access-Control-Allow-Origin" =
        some [r.Header.Get "Origin"]) ∧
    (corsWrap (recorded h) (w, s, log) r).2 = (s, log) := by
  obtain ⟨w1, hrun, hrest, hhdr⟩ := corsWrap_delegation w r
  have hw1 : w1.wroteHeader = false := by rw [← hrest] at hw; exact hw
  have hb1 : w1.body = "" := by rw [← hrest] at hb; exact hb
  have hc1 : w1.calls = w.calls := by
    have := congrArg ResponseWriter.calls hrest
    exact this
  rw [hrun, hrun]
  simp only [hm, if_true, finishRequest, ResponseWriter.commit, hw1, Bool.false_eq_true, if_false,
    hb1, hc1, hhdr]
  simp only [String.reduceEq, if_false, if_true, true_and, and_true, ne_eq, false_and]
  intro ho
  simp [ho]

/-- The preflight of the specification's end-to-end scenario: `OPTIONS /insert`
with `Origin: http://x.test` gets 200, an empty body and the origin echoed. -/
theorem corsWrap_options_response_witness :
    (finishRequest (corsWrap Welcome (newResponse, ()) preflightWithOrigin).1).status = 200 ∧
    (finishRequest (corsWrap Welcome (newResponse, ()) preflightWithOrigin).1).body = "" ∧
    (finishRequest (corsWrap Welcome (newResponse, ()) preflightWithOrigin).1).sent
      "Access-Control-Allow-Origin" = some ["http://x.test"] ∧
    (corsWrap (recorded Welcome) (newResponse, (), []) preflightWithOrigin).2 = ((), []) :=
  ⟨(corsWrap_options_response Welcome newResponse () [] preflightWithOrigin rfl rfl rfl).1,
   (corsWrap_options_response Welcome newResponse () [] preflightWithOrigin rfl rfl rfl).2.1,
   (corsWrap_options_response Welcome newResponse () [] preflightWithOrigin rfl rfl
      rfl).2.2.2.2.2.2.2.1 (by decide),
   (corsWrap_options_response Welcome newResponse () [] preflightWithOrigin rfl rfl
      rfl).2.2.2.2.2.2.2.2⟩

/-- C10: on an `OPTIONS` request the header map `corsWrap` leaves behind depends
only on the request and on the header map it started from (not on the wrapped
handler or the rest of the state), so two runs from equal initial headers give
equal headers; and a run that starts from the headers an earlier run on the
same request produced leaves them unchanged. -/
theorem corsWrap_options_idempotent {σ : Type} (h1 h2 : HandlerFunc σ) (w : ResponseWriter)
    (s1 s2 : σ) (r : Request) (hm : r.Method = "OPTIONS") :
    (∀ w2 : ResponseWriter, w2.Header = w.Header →
      (corsWrap h2 (w2, s2) r).1.Header = (corsWrap h1 (w, s1) r).1.Header) ∧
    (∀ w2 : ResponseWriter, w2.Header = (corsWrap h1 (w, s1) r).1.Header →
      (corsWrap h2 (w2, s2) r).1.Header = w2.Header) := by
  obtain ⟨w1, hrun, -, hhdr⟩ := corsWrap_delegation w r
  constructor
  · intro w2 h2eq
    obtain ⟨w3, hrun3, -, hhdr3⟩ := corsWrap_delegation w2 r
    rw [hrun, hrun3]
    simp only [hm, if_true, hhdr, hhdr3, h2eq]
  · intro w2 h2eq
    obtain ⟨w3, hrun3, -, hhdr3⟩ := corsWrap_delegation w2 r
    rw [hrun] at h2eq
    simp only [hm, if_true] at h2eq
    rw [hrun3]
    simp only [hm, if_true, hhdr3]
    funext k
    have e := congrFun h2eq k
    rw [hhdr] at e
    by_cases a1 : k = "Access-Control-Allow-Headers"
    · simpa [a1] using e.symm
    by_cases a2 : k = "Access-Control-Allow-Methods"
    · simpa [a1, a2] using e.symm
    by_cases a3 : k = "Access-Control-Expose-Headers"
    · simpa [a1, a2, a3] using e.symm
    by_cases a4 : k = "Access-Control-Allow-Origin" ∧ r.Header.Get "Origin" ≠ ""
    · simpa [a1, a2, a3, a4] using e.symm
    by_cases a5 : k = "Cache-Control"
    · simpa [a1, a2, a3, a4, a5] using e.symm
    simp only [a1, a2, a3, a4, a5, if_false]

/-- Two preflights `OPTIONS /insert` with `Origin: http://x.test`, the second
starting from the headers of the first, end with the same header map. -/
theorem corsWrap_options_idempotent_witness :
    (corsWrap Welcome
        (corsWrap Welcome (newResponse, ()) preflightWithOrigin) preflightWithOrigin).1.Header =
      (corsWrap Welcome (newResponse, ()) preflightWithOrigin).1.Header :=
  (corsWrap_options_idempotent Welcome Welcome newResponse () () preflightWithOrigin rfl).2
    (corsWrap Welcome (newResponse, ()) preflightWithOrigin).1 rfl

/-! ## Registration tables -/

/-- C7: run in a fresh process, `ServeCorsEndpoints` returns after registering
exactly the 19 operation paths the specification lists (the same paths, each
once), none of them an always-public path, and its routing table is the table
of `ServeEndpoints` with every handler replaced by `corsWrap` of that handler:
each path is bound to the function `corsWrap` makes of the operation that
`ServeEndpoints` binds to the same path. -/
theorem ServeCorsEndpoints_table :
    (ServeCorsEndpoints World.init).1 = Outcome.returned () ∧
    (ServeEndpoints World.init).1 = Outcome.returned () ∧
    ((routes (ServeCorsEndpoints World.init).2.events).map Prod.fst).Perm specOperationPaths ∧
    ((routes (ServeCorsEndpoints World.init).2.events).map Prod.fst).Nodup ∧
    (routes (ServeCorsEndpoints World.init).2.events).length = 19 ∧
    (∀ p ∈ (routes (ServeCorsEndpoints World.init).2.events).map Prod.fst,
      p ∉ alwaysPublicPaths) ∧
    routes (ServeCorsEndpoints World.init).2.events =
      (routes (ServeEndpoints World.init).2.events).map
        (fun e => (e.1, Handler.corsWrap e.2)) ∧
    (∀ (σ : Type) (base : Handler → HandlerFunc σ) (e : String × Handler),
      e ∈ routes (ServeCorsEndpoints World.init).2.events →
      ∃ h : Handler, (e.1, h) ∈ routes (ServeEndpoints World.init).2.events ∧
        e.2.run base = corsWrap (h.run base)) := by
  have htable : routes (ServeCorsEndpoints World.init).2.events =
      (routes (ServeEndpoints World.init).2.events).map
        (fun e => (e.1, Handler.corsWrap e.2)) := by decide
  refine ⟨by decide, by decide, by decide, by decide, by decide, by decide, htable, ?_⟩
  intro σ base e he
  rw [htable, List.mem_map] at he
  obtain ⟨e0, he0, rfl⟩ := he
  exact ⟨e0.2, he0, rfl⟩

/-! ## `Start` -/

/-- C6: when the database opens, the registration calls `Start` makes in a
fresh process are, in order, `/`, `/version` and `/memstats` bound to `Welcome`,
`Version` and `MemStats` themselves, followed by the single call of
`ServeJWTEnabledEndpoints` when `jwtPrivateKey` is non-empty and by the
registrations of `ServeCorsEndpoints` when it is empty: the choice is made by
`jwtPrivateKey` alone, and no registration of the unwrapped `ServeEndpoints`
is ever made. -/
theorem Start_registrations (env : Env) (dir : String) (port : Int)
    (tlsCrt tlsKey jwtPubKey jwtPrivateKey : String) (hdb : (env.OpenDB dir).2 = none) :
    registrations (Start env dir port tlsCrt tlsKey jwtPubKey jwtPrivateKey World.init).2.events =
      [Event.HandleFunc "/" Handler.Welcome, Event.HandleFunc "/version" Handler.Version,
       Event.HandleFunc "/memstats" Handler.MemStats] ++
      (if jwtPrivateKey ≠ "" then [Event.ServeJWTEnabledEndpoints jwtPubKey jwtPrivateKey]
       else registrations (ServeCorsEndpoints World.init).2.events) ∧
    (∀ e ∈ registrations (ServeEndpoints World.init).2.events,
      e ∉ registrations
        (Start env dir port tlsCrt tlsKey jwtPubKey jwtPrivateKey World.init).2.events) := by
  have key : registrations
      (Start env dir port tlsCrt tlsKey jwtPubKey jwtPrivateKey World.init).2.events =
      [Event.HandleFunc "/" Handler.Welcome, Event.HandleFunc "/version" Handler.Version,
       Event.HandleFunc "/memstats" Handler.MemStats] ++
      (if jwtPrivateKey ≠ "" then [Event.ServeJWTEnabledEndpoints jwtPubKey jwtPrivateKey]
       else registrations (ServeCorsEndpoints World.init).2.events) := by
    by_cases hp : jwtPrivateKey = "" <;> by_cases ht : tlsCrt = ""
    · rcases hl : env.ListenAndServe (":" ++ toString port) with _ | err <;>
      simp [Start, bind, Boot.bind, pure, OpenDB, hdb, HandleFunc, emit, registered, World.init,
        hp, ht, ServeCorsEndpoints, Noticef, ListenAndServe, hl, registrations]
    · rcases hl : env.ListenAndServeTLS (":" ++ toString port) tlsCrt tlsKey
        with _ | _ | err <;>
      simp [Start, bind, Boot.bind, pure, OpenDB, hdb, HandleFunc, emit, registered, World.init,
        hp, ht, ServeCorsEndpoints, Noticef, ListenAndServeTLS, Panicf, goPanic, hl, registrations]
    · rcases hj : env.ServeJWTEnabledEndpoints jwtPubKey jwtPrivateKey with _ | v <;>
      rcases hl : env.ListenAndServe (":" ++ toString port) with _ | err <;>
      simp [Start, bind, Boot.bind, pure, OpenDB, hdb, HandleFunc, emit, registered, World.init,
        hp, ht, ServeJWTEnabledEndpoints, hj, Noticef, ListenAndServe, hl, registrations]
    · rcases hj : env.ServeJWTEnabledEndpoints jwtPubKey jwtPrivateKey with _ | v <;>
      rcases hl : env.ListenAndServeTLS (":" ++ toString port) tlsCrt tlsKey
        with _ | _ | err <;>
      simp [Start, bind, Boot.bind, pure, OpenDB, hdb, HandleFunc, emit, registered, World.init,
        hp, ht, ServeJWTEnabledEndpoints, hj, Noticef, ListenAndServeTLS, Panicf, goPanic, hl,
        registrations]
  refine ⟨key, ?_⟩
  rw [key]
  by_cases hp : jwtPrivateKey = ""
  · simp only [hp, ne_eq, not_true_eq_false, if_false]
    decide
  · simp only [hp, ne_eq, not_false_eq_true, if_true]
    intro e he hmem
    simp only [List.cons_append, List.nil_append, List.mem_cons, List.mem_singleton,
      List.not_mem_nil, or_false] at hmem
    have hreg : ∀ e ∈ registrations (ServeEndpoints World.init).2.events,
        e.isHandleFunc = true := by decide
    have hf := hreg e he
    rcases hmem with rfl | rfl | rfl | rfl
    · revert he; decide
    · revert he; decide
    · revert he; decide
    · simp [Event.isHandleFunc] at hf

/-- With the database open: without a private key `Start` registers the three
public paths and then the CORS table, with a private key the three public paths
and then calls `ServeJWTEnabledEndpoints`. -/
theorem Start_registrations_witness :
    registrations (Start servingEnv "/tmp/d1" 8080 "" "" "" "" World.init).2.events =
      [Event.HandleFunc "/" Handler.Welcome, Event.HandleFunc "/version" Handler.Version,
       Event.HandleFunc "/memstats" Handler.MemStats] ++
      registrations (ServeCorsEndpoints World.init).2.events ∧
    registrations
        (Start servingEnv "/tmp/d1" 8080 "" "" "pub.pem" "priv.pem" World.init).2.events =
      [Event.HandleFunc "/" Handler.Welcome, Event.HandleFunc "/version" Handler.Version,
       Event.HandleFunc "/memstats" Handler.MemStats,
       Event.ServeJWTEnabledEndpoints "pub.pem" "priv.pem"] :=
  ⟨(Start_registrations servingEnv "/tmp/d1" 8080 "" "" "" "" rfl).1,
   (Start_registrations servingEnv "/tmp/d1" 8080 "" "" "pub.pem" "priv.pem" rfl).1⟩

/-- With the database open and a private key configured, a panic of
`ServeJWTEnabledEndpoints` ends `Start` before the transport is chosen: `Start`
panics and no listener call is made, with or without a TLS certificate. -/
theorem Start_no_listener_when_registration_panics :
    (jwtPanicEnv.OpenDB "/tmp/d1").2 = none ∧
    (Start jwtPanicEnv "/tmp/d1" 8080 "" "" "pub.pem" "priv.pem" World.init).1 =
      Outcome.panicked
        "JWT: Failed to read public key file - open pub.pem: no such file or directory" ∧
    listeners
      (Start jwtPanicEnv "/tmp/d1" 8080 "" "" "pub.pem" "priv.pem" World.init).2.events = [] ∧
    listeners
      (Start jwtPanicEnv "/tmp/d1" 8080 "crt.pem" "key.pem" "pub.pem" "priv.pem"
        World.init).2.events = [] := by
  decide

/-- C8, amended: when the database opens and the operation-set registration
completes (the call of `ServeJWTEnabledEndpoints`, made when `jwtPrivateKey` is
non-empty, returns), `Start` makes exactly one listener call, on address `:`
followed by the port: `ListenAndServeTLS` with `tlsCrt` and `tlsKey` when
`tlsCrt` is non-empty, `ListenAndServe` otherwise, also when only `tlsKey` is
set. Neither JWT key has any part in the choice of transport. -/
theorem Start_listener (env : Env) (dir : String) (port : Int)
    (tlsCrt tlsKey jwtPubKey jwtPrivateKey : String) (hdb : (env.OpenDB dir).2 = none)
    (hjwt : jwtPrivateKey ≠ "" → env.ServeJWTEnabledEndpoints jwtPubKey jwtPrivateKey = none) :
    listeners (Start env dir port tlsCrt tlsKey jwtPubKey jwtPrivateKey World.init).2.events =
      [if tlsCrt ≠ "" then Event.ListenAndServeTLS (":" ++ toString port) tlsCrt tlsKey
       else Event.ListenAndServe (":" ++ toString port)] := by
  by_cases hp : jwtPrivateKey = "" <;> by_cases ht : tlsCrt = ""
  · rcases hl : env.ListenAndServe (":" ++ toString port) with _ | err <;>
    simp [Start, bind, Boot.bind, pure, OpenDB, hdb, HandleFunc, emit, registered, World.init,
      hp, ht, ServeCorsEndpoints, Noticef, ListenAndServe, hl, listeners]
  · rcases hl : env.ListenAndServeTLS (":" ++ toString port) tlsCrt tlsKey
      with _ | _ | err <;>
    simp [Start, bind, Boot.bind, pure, OpenDB, hdb, HandleFunc, emit, registered, World.init,
      hp, ht, ServeCorsEndpoints, Noticef, ListenAndServeTLS, Panicf, goPanic, hl, listeners]
  · have hj := hjwt hp
    rcases hl : env.ListenAndServe (":" ++ toString port) with _ | err <;>
    simp [Start, bind, Boot.bind, pure, OpenDB, hdb, HandleFunc, emit, registered, World.init,
      hp, ht, ServeJWTEnabledEndpoints, hj, Noticef, ListenAndServe, hl, listeners]
  · have hj := hjwt hp
    rcases hl : env.ListenAndServeTLS (":" ++ toString port) tlsCrt tlsKey
      with _ | _ | err <;>
    simp [Start, bind, Boot.bind, pure, OpenDB, hdb, HandleFunc, emit, registered, World.init,
      hp, ht, ServeJWTEnabledEndpoints, hj, Noticef, ListenAndServeTLS, Panicf, goPanic, hl,
      listeners]

/-- The four combinations of transport and authentication on port 8080: the
listener follows `tlsCrt` alone, with and without a private key, and a `tlsKey`
without a certificate gives the plaintext listener. -/
theorem Start_listener_witness :
    listeners (Start servingEnv "/tmp/d1" 8080 "" "" "" "" World.init).2.events =
      [Event.ListenAndServe ":8080"] ∧
    listeners (Start servingEnv "/tmp/d1" 8080 "" "key.pem" "pub.pem" "priv.pem"
        World.init).2.events =
      [Event.ListenAndServe ":8080"] ∧
    listeners (Start servingEnv "/tmp/d1" 8080 "crt.pem" "key.pem" "" "" World.init).2.events =
      [Event.ListenAndServeTLS ":8080" "crt.pem" "key.pem"] ∧
    listeners (Start servingEnv "/tmp/d1" 8080 "crt.pem" "key.pem" "pub.pem" "priv.pem"
        World.init).2.events =
      [Event.ListenAndServeTLS ":8080" "crt.pem" "key.pem"] :=
  ⟨Start_listener servingEnv "/tmp/d1" 8080 "" "" "" "" rfl (fun _ => rfl),
   Start_listener servingEnv "/tmp/d1" 8080 "" "key.pem" "pub.pem" "priv.pem" rfl (fun _ => rfl),
   Start_listener servingEnv "/tmp/d1" 8080 "crt.pem" "key.pem" "" "" rfl (fun _ => rfl),
   Start_listener servingEnv "/tmp/d1" 8080 "crt.pem" "key.pem" "pub.pem" "priv.pem" rfl
     (fun _ => rfl)⟩

/-! ### Bootstrap failures -/

/-- When `db.OpenDB` returns an error `Start` panics with it, having registered
no route and started no listener. -/
theorem Start_open_failure (env : Env) (dir : String) (port : Int)
    (tlsCrt tlsKey jwtPubKey jwtPrivateKey e : String) (hdb : (env.OpenDB dir).2 = some e) :
    (Start env dir port tlsCrt tlsKey jwtPubKey jwtPrivateKey World.init).1 =
      Outcome.panicked e ∧
    routes (Start env dir port tlsCrt tlsKey jwtPubKey jwtPrivateKey World.init).2.events = [] ∧
    registrations
      (Start env dir port tlsCrt tlsKey jwtPubKey jwtPrivateKey World.init).2.events = [] ∧
    listeners
      (Start env dir port tlsCrt tlsKey jwtPubKey jwtPrivateKey World.init).2.events = [] := by
  simp [Start, bind, Boot.bind, OpenDB, hdb, goPanic, World.init, routes, registrations,
    listeners]

/-- When the TLS listener returns an error, `Start` panics with the diagnostic
`Failed to start HTTPS service`. -/
theorem Start_tls_failure (env : Env) (dir : String) (port : Int)
    (tlsCrt tlsKey jwtPubKey jwtPrivateKey e : String) (hdb : (env.OpenDB dir).2 = none)
    (hjwt : jwtPrivateKey ≠ "" → env.ServeJWTEnabledEndpoints jwtPubKey jwtPrivateKey = none)
    (ht : tlsCrt ≠ "")
    (hl : env.ListenAndServeTLS (":" ++ toString port) tlsCrt tlsKey = Listen.returns (some e)) :
    (Start env dir port tlsCrt tlsKey jwtPubKey jwtPrivateKey World.init).1 =
      Outcome.panicked ("Failed to start HTTPS service - " ++ e) := by
  by_cases hp : jwtPrivateKey = ""
  · simp [Start, bind, Boot.bind, pure, OpenDB, hdb, HandleFunc, emit, registered, World.init,
      hp, ht, ServeCorsEndpoints, Noticef, ListenAndServeTLS, Panicf, goPanic, hl]
  · have hj := hjwt hp
    simp [Start, bind, Boot.bind, pure, OpenDB, hdb, HandleFunc, emit, registered, World.init,
      hp, ht, ServeJWTEnabledEndpoints, hj, Noticef, ListenAndServeTLS, Panicf, goPanic, hl]

/-- When the plaintext listener returns, with an error or without, `Start`
drops the value and returns normally to its caller. -/
theorem Start_plaintext_failure (env : Env) (dir : String) (port : Int)
    (tlsKey jwtPubKey jwtPrivateKey : String) (err : Option String)
    (hdb : (env.OpenDB dir).2 = none)
    (hjwt : jwtPrivateKey ≠ "" → env.ServeJWTEnabledEndpoints jwtPubKey jwtPrivateKey = none)
    (hl : env.ListenAndServe (":" ++ toString port) = Listen.returns err) :
    (Start env dir port "" tlsKey jwtPubKey jwtPrivateKey World.init).1 =
      Outcome.returned () := by
  by_cases hp : jwtPrivateKey = ""
  · simp [Start, bind, Boot.bind, pure, OpenDB, hdb, HandleFunc, emit, registered, World.init,
      hp, ServeCorsEndpoints, Noticef, ListenAndServe, hl]
  · have hj := hjwt hp
    simp [Start, bind, Boot.bind, pure, OpenDB, hdb, HandleFunc, emit, registered, World.init,
      hp, ServeJWTEnabledEndpoints, hj, Noticef, ListenAndServe, hl]

/-- C9, the code at the failing input: with port 8080 already bound and no TLS
certificate, the plaintext listener returns its bind error and `Start` returns
normally instead of panicking, whereas the same failure on the TLS path
panics. -/
theorem Start_bind_failure_plaintext_returns :
    bindFailureEnv.ListenAndServe ":8080" =
      Listen.returns (some "listen tcp :8080: bind: address already in use") ∧
    (Start bindFailureEnv "/tmp/d1" 8080 "" "" "" "" World.init).1 = Outcome.returned () ∧
    (Start bindFailureEnv "/tmp/d1" 8080 "crt.pem" "key.pem" "" "" World.init).1 =
      Outcome.panicked
        "Failed to start HTTPS service - listen tcp :8080: bind: address already in use" := by
  decide

end httpapi
